import Mathlib

/-!
Shallow embedding of the pallet-reseller financial engine
(src/types.ts and the calculateFinancials function of src/utils/calculations,
whose text is concatenated into src/types.ts), of the two simulateSale
variants (src/App.tsx simResults and src/unnamed/part_000 simResults), and of
the per-sale ledger built by the report exporter
(src/components/ExportButton.tsx, handleExport).

JavaScript numbers are modelled as exact rationals: every quantity the engine
manipulates is a plain number and the specification reasons about the
arithmetic exactly.  A second model, JSNum, extends the rationals with the
IEEE special values Infinity, -Infinity and NaN and implements the
JavaScript semantics of the arithmetic operators on them; it is used for the
claims about division by zero on degenerate configurations.  Rounding of
finite values is not modelled in either case.
-/

namespace Pallet

/-- Configuration record, from the PalletConfig interface in src/types.ts.
All five fields are JavaScript numbers. -/
structure PalletConfig where
  investmentUsd : ℚ
  exchangeRate : ℚ
  totalPieces : ℚ
  additionalExpensesUsd : ℚ
  targetMultiplier : ℚ
deriving DecidableEq

/-- One sale record, from the Sale interface in src/types.ts. -/
structure Sale where
  id : String
  date : String
  price : ℚ
  method : String
  client : String
  realCostAtSale : ℚ
deriving DecidableEq

/-- The record returned by calculateFinancials: one field per entry of the
object literal the function returns. -/
structure FinancialSnapshot where
  totalInvestmentUsd : ℚ
  totalInvestmentMxn : ℚ
  totalRevenueUsd : ℚ
  remainingInvestmentUsd : ℚ
  piecesSold : ℕ
  remainingPieces : ℚ
  dynamicCostPerPieceUsd : ℚ
  capitalRecoveredUsd : ℚ
  netProfitUsd : ℚ
  recoveryProgress : ℚ
  initialCostPerPieceUsd : ℚ
  averageMarginUsd : ℚ
  targetRevenueUsd : ℚ
  progressToTarget : ℚ
  isROIReached : Bool
deriving DecidableEq

/-- The financial engine, translated line by line from calculateFinancials in
src/types.ts (the utils/calculations part).  sales.reduce over prices becomes
a left fold starting at 0; the JavaScript ternaries become if-then-else. -/
def calculateFinancials (config : PalletConfig) (sales : List Sale) : FinancialSnapshot :=
  let totalInvestmentUsd := config.investmentUsd + config.additionalExpensesUsd
  let totalInvestmentMxn := totalInvestmentUsd * config.exchangeRate
  let totalRevenueUsd := sales.foldl (fun acc s => acc + s.price) 0
  let remainingInvestmentUsd := max 0 (totalInvestmentUsd - totalRevenueUsd)
  let piecesSold := sales.length
  let remainingPieces := config.totalPieces - (piecesSold : ℚ)
  let dynamicCostPerPieceUsd :=
    if remainingPieces > 0 then remainingInvestmentUsd / remainingPieces else 0
  let capitalRecoveredUsd := min totalRevenueUsd totalInvestmentUsd
  let netProfitUsd := max 0 (totalRevenueUsd - totalInvestmentUsd)
  let recoveryProgress := (capitalRecoveredUsd / totalInvestmentUsd) * 100
  let initialCostPerPieceUsd := totalInvestmentUsd / config.totalPieces
  let averageMarginUsd :=
    if sales.length > 0 then (totalRevenueUsd / (sales.length : ℚ)) - initialCostPerPieceUsd else 0
  let targetRevenueUsd := totalInvestmentUsd * config.targetMultiplier
  let progressToTarget := (totalRevenueUsd / targetRevenueUsd) * 100
  let isROIReached := decide (totalRevenueUsd ≥ totalInvestmentUsd)
  { totalInvestmentUsd := totalInvestmentUsd
    totalInvestmentMxn := totalInvestmentMxn
    totalRevenueUsd := totalRevenueUsd
    remainingInvestmentUsd := remainingInvestmentUsd
    piecesSold := piecesSold
    remainingPieces := remainingPieces
    dynamicCostPerPieceUsd := dynamicCostPerPieceUsd
    capitalRecoveredUsd := capitalRecoveredUsd
    netProfitUsd := netProfitUsd
    recoveryProgress := recoveryProgress
    initialCostPerPieceUsd := initialCostPerPieceUsd
    averageMarginUsd := averageMarginUsd
    targetRevenueUsd := targetRevenueUsd
    progressToTarget := progressToTarget
    isROIReached := isROIReached }

/-- The left fold the engine uses for revenue equals the sum of the mapped
prices, for any starting accumulator. -/
lemma foldl_price_eq (sales : List Sale) (q : ℚ) :
    sales.foldl (fun acc s => acc + s.price) q = q + (sales.map Sale.price).sum := by
  induction sales generalizing q with
  | nil => simp
  | cons s rest ih =>
      simp only [List.foldl_cons, List.map_cons, List.sum_cons, ih]
      ring

/-- Revenue of the engine, as the sum of the prices. -/
lemma totalRevenue_eq (config : PalletConfig) (sales : List Sale) :
    (calculateFinancials config sales).totalRevenueUsd = (sales.map Sale.price).sum := by
  simp [calculateFinancials, foldl_price_eq]

end Pallet

namespace Pallet

/-- Shared concrete configuration for witnesses: Scenario A of the spec,
investment 1000, rate 20, 100 pieces, no extra expenses, target multiplier 2. -/
def cfgA : PalletConfig :=
  { investmentUsd := 1000, exchangeRate := 20, totalPieces := 100,
    additionalExpensesUsd := 0, targetMultiplier := 2 }

/-- A concrete sale of 1500 dollars. -/
def saleBig : Sale :=
  { id := "s1", date := "2024-01-01", price := 1500, method := "Efectivo",
    client := "Ana", realCostAtSale := 10 }

/-- A concrete sale of 300 dollars. -/
def saleSmall : Sale :=
  { id := "s2", date := "2024-01-02", price := 300, method := "Tarjeta",
    client := "", realCostAtSale := 10 }

/-- A concrete sale with a negative price, representable because nothing in
the code validates prices. -/
def saleNeg : Sale :=
  { id := "s3", date := "2024-01-03", price := -2000, method := "Efectivo",
    client := "Bob", realCostAtSale := 10 }

end Pallet

namespace Pallet

/-- C1: for every config and sales list the snapshot satisfies
isROIReached == (totalRevenueUsd >= totalInvestmentUsd) and
netProfitUsd == max(0, totalRevenueUsd - totalInvestmentUsd), where
totalRevenueUsd is the sum of the sale prices and totalInvestmentUsd is
investmentUsd + additionalExpensesUsd. -/
theorem roi_and_netProfit_formulas (config : PalletConfig) (sales : List Sale) :
    ((calculateFinancials config sales).isROIReached = true ↔
      (calculateFinancials config sales).totalInvestmentUsd ≤
        (calculateFinancials config sales).totalRevenueUsd) ∧
    (calculateFinancials config sales).netProfitUsd =
      max 0 ((calculateFinancials config sales).totalRevenueUsd -
        (calculateFinancials config sales).totalInvestmentUsd) ∧
    (calculateFinancials config sales).totalRevenueUsd = (sales.map Sale.price).sum ∧
    (calculateFinancials config sales).totalInvestmentUsd =
      config.investmentUsd + config.additionalExpensesUsd := by
  refine ⟨?_, ?_, totalRevenue_eq config sales, ?_⟩ <;>
    simp [calculateFinancials, ge_iff_le]

/-- C2: whenever totalInvestmentUsd is nonnegative, recovered capital plus
remaining investment equals the total investment, with
capitalRecoveredUsd = min(totalRevenueUsd, totalInvestmentUsd) and
remainingInvestmentUsd = max(0, totalInvestmentUsd - totalRevenueUsd). -/
theorem capital_split_invariant (config : PalletConfig) (sales : List Sale)
    (_h : 0 ≤ (calculateFinancials config sales).totalInvestmentUsd) :
    (calculateFinancials config sales).capitalRecoveredUsd +
      (calculateFinancials config sales).remainingInvestmentUsd =
      (calculateFinancials config sales).totalInvestmentUsd ∧
    (calculateFinancials config sales).capitalRecoveredUsd =
      min (calculateFinancials config sales).totalRevenueUsd
        (calculateFinancials config sales).totalInvestmentUsd ∧
    (calculateFinancials config sales).remainingInvestmentUsd =
      max 0 ((calculateFinancials config sales).totalInvestmentUsd -
        (calculateFinancials config sales).totalRevenueUsd) := by
  refine ⟨?_, by simp [calculateFinancials], by simp [calculateFinancials]⟩
  simp only [calculateFinancials]
  rcases le_total ((sales.foldl (fun acc s => acc + s.price) 0))
      (config.investmentUsd + config.additionalExpensesUsd) with hle | hle <;>
    simp [min_def, max_def, hle]

/-- C2 witness: the invariant at the concrete Scenario A configuration with
one 1500 dollar sale. -/
theorem capital_split_invariant_witness :
    0 ≤ (calculateFinancials cfgA [saleBig]).totalInvestmentUsd ∧
    ((calculateFinancials cfgA [saleBig]).capitalRecoveredUsd +
        (calculateFinancials cfgA [saleBig]).remainingInvestmentUsd =
        (calculateFinancials cfgA [saleBig]).totalInvestmentUsd ∧
      (calculateFinancials cfgA [saleBig]).capitalRecoveredUsd =
        min (calculateFinancials cfgA [saleBig]).totalRevenueUsd
          (calculateFinancials cfgA [saleBig]).totalInvestmentUsd ∧
      (calculateFinancials cfgA [saleBig]).remainingInvestmentUsd =
        max 0 ((calculateFinancials cfgA [saleBig]).totalInvestmentUsd -
          (calculateFinancials cfgA [saleBig]).totalRevenueUsd)) :=
  ⟨by norm_num [calculateFinancials, cfgA, saleBig], capital_split_invariant cfgA [saleBig] (by norm_num [calculateFinancials, cfgA, saleBig])⟩

/-- C9: recovered capital plus net profit equals total revenue,
unconditionally, since min(R, I) + max(0, R - I) = R. -/
theorem revenue_split_invariant (config : PalletConfig) (sales : List Sale) :
    (calculateFinancials config sales).capitalRecoveredUsd +
      (calculateFinancials config sales).netProfitUsd =
      (calculateFinancials config sales).totalRevenueUsd := by
  simp only [calculateFinancials]
  rcases le_total ((sales.foldl (fun acc s => acc + s.price) 0))
      (config.investmentUsd + config.additionalExpensesUsd) with hle | hle <;>
    simp [min_def, max_def, hle]

end Pallet

namespace Pallet

/-- Oversold witness configuration: only 2 pieces in the lot. -/
def cfgOver : PalletConfig :=
  { investmentUsd := 1000, exchangeRate := 20, totalPieces := 2,
    additionalExpensesUsd := 0, targetMultiplier := 2 }

/-- C3: dynamicCostPerPieceUsd is remainingInvestmentUsd / remainingPieces when
remainingPieces is positive and 0 otherwise; when more pieces are sold than
the configured total, remainingPieces is negative (not clamped) and
dynamicCostPerPieceUsd is 0, with no error raised. -/
theorem dynamicCost_formula_and_oversold (config : PalletConfig) (sales : List Sale) :
    ((calculateFinancials config sales).dynamicCostPerPieceUsd =
      if 0 < (calculateFinancials config sales).remainingPieces then
        (calculateFinancials config sales).remainingInvestmentUsd /
          (calculateFinancials config sales).remainingPieces
      else 0) ∧
    (config.totalPieces < ((sales.length : ℚ)) →
      (calculateFinancials config sales).remainingPieces < 0 ∧
      (calculateFinancials config sales).dynamicCostPerPieceUsd = 0) := by
  refine ⟨by simp [calculateFinancials], fun h => ⟨?_, ?_⟩⟩
  · simp only [calculateFinancials]
    linarith
  · have h2 : ¬ (0 < config.totalPieces - ((sales.length : ℕ) : ℚ)) := by linarith
    simp [calculateFinancials, h2]

/-- C3 witness: 3 sales against a 2-piece lot; the remaining piece count is -1
and the dynamic cost is 0. -/
theorem dynamicCost_formula_and_oversold_witness :
    (cfgOver.totalPieces < (([saleBig, saleSmall, saleNeg].length : ℕ) : ℚ)) ∧
    ((calculateFinancials cfgOver [saleBig, saleSmall, saleNeg]).remainingPieces < 0 ∧
      (calculateFinancials cfgOver [saleBig, saleSmall, saleNeg]).dynamicCostPerPieceUsd = 0) :=
  ⟨by norm_num [cfgOver],
    (dynamicCost_formula_and_oversold cfgOver [saleBig, saleSmall, saleNeg]).2
      (by norm_num [cfgOver])⟩

/-- C5: the snapshot is invariant under any permutation of the sales list;
every aggregate is an order-independent function of the price sum and the
sale count. -/
theorem snapshot_perm_invariant (config : PalletConfig) (sales1 sales2 : List Sale)
    (h : sales1.Perm sales2) :
    calculateFinancials config sales1 = calculateFinancials config sales2 := by
  have hrev : sales1.foldl (fun acc s => acc + s.price) 0 =
      sales2.foldl (fun acc s => acc + s.price) 0 := by
    rw [foldl_price_eq, foldl_price_eq, List.Perm.sum_eq (h.map Sale.price)]
  simp only [calculateFinancials, hrev, h.length_eq]

/-- C5 witness: swapping two concrete sales leaves the snapshot unchanged. -/
theorem snapshot_perm_invariant_witness :
    ([saleBig, saleSmall].Perm [saleSmall, saleBig]) ∧
    calculateFinancials cfgA [saleBig, saleSmall] =
      calculateFinancials cfgA [saleSmall, saleBig] :=
  ⟨List.Perm.swap saleSmall saleBig [],
    snapshot_perm_invariant cfgA [saleBig, saleSmall] [saleSmall, saleBig]
      (List.Perm.swap saleSmall saleBig [])⟩

/-- Sum of prices is nonnegative when every price is nonnegative. -/
lemma price_sum_nonneg (sales : List Sale) (hs : ∀ x ∈ sales, 0 ≤ x.price) :
    0 ≤ (sales.map Sale.price).sum := by
  apply List.sum_nonneg
  intro q hq
  rcases List.mem_map.mp hq with ⟨s, hsmem, rfl⟩
  exact hs s hsmem

/-- C4 counterexample: with the Scenario A configuration and a single sale of
price -2000 (no validation forbids it), recoveryProgress is -200, outside
[0, 100], and appending that sale to the empty log strictly decreases
recoveryProgress. -/
theorem recoveryProgress_counterexample :
    (calculateFinancials cfgA [saleNeg]).recoveryProgress < 0 ∧
    (calculateFinancials cfgA ([] ++ [saleNeg])).recoveryProgress <
      (calculateFinancials cfgA []).recoveryProgress := by
  norm_num [calculateFinancials, cfgA, saleNeg]

/-- C4 amended: for a config whose total investment is positive and sales
whose prices are all nonnegative, recoveryProgress is non-decreasing under
appending a sale of nonnegative price, and lies in [0, 100]. -/
theorem recoveryProgress_monotone_bounded (config : PalletConfig) (sales : List Sale)
    (s : Sale) (hI : 0 < config.investmentUsd + config.additionalExpensesUsd)
    (hs : ∀ x ∈ sales, 0 ≤ x.price) (hp : 0 ≤ s.price) :
    (calculateFinancials config sales).recoveryProgress ≤
      (calculateFinancials config (sales ++ [s])).recoveryProgress ∧
    0 ≤ (calculateFinancials config sales).recoveryProgress ∧
    (calculateFinancials config sales).recoveryProgress ≤ 100 := by
  have hR : 0 ≤ (sales.map Sale.price).sum := price_sum_nonneg sales hs
  simp only [calculateFinancials, foldl_price_eq, zero_add, List.map_append,
    List.sum_append, List.map_cons, List.map_nil, List.sum_cons, List.sum_nil, add_zero]
  set R := (sales.map Sale.price).sum with hRdef
  set I := config.investmentUsd + config.additionalExpensesUsd with hIdef
  refine ⟨?_, ?_, ?_⟩
  · exact mul_le_mul_of_nonneg_right
      ((div_le_div_iff_of_pos_right hI).mpr (min_le_min (le_add_of_nonneg_right hp) le_rfl))
      (by norm_num)
  · exact mul_nonneg (div_nonneg (le_min hR hI.le) hI.le) (by norm_num)
  · have h1 : min R I / I ≤ 1 := (div_le_one hI).mpr (min_le_right R I)
    have h2 := mul_le_mul_of_nonneg_right h1 (show (0:ℚ) ≤ 100 by norm_num)
    linarith

/-- C4 witness: the amended monotonicity and bounds at Scenario A with one
300 dollar sale, appending a 1500 dollar sale. -/
theorem recoveryProgress_monotone_bounded_witness :
    (0 < cfgA.investmentUsd + cfgA.additionalExpensesUsd) ∧
    (∀ x ∈ [saleSmall], 0 ≤ x.price) ∧ (0 ≤ saleBig.price) ∧
    ((calculateFinancials cfgA [saleSmall]).recoveryProgress ≤
        (calculateFinancials cfgA ([saleSmall] ++ [saleBig])).recoveryProgress ∧
      0 ≤ (calculateFinancials cfgA [saleSmall]).recoveryProgress ∧
      (calculateFinancials cfgA [saleSmall]).recoveryProgress ≤ 100) :=
  ⟨by norm_num [cfgA], by simp [saleSmall], by norm_num [saleBig],
    recoveryProgress_monotone_bounded cfgA [saleSmall] saleBig
      (by norm_num [cfgA]) (by simp [saleSmall]) (by norm_num [saleBig])⟩

/-- C10: progressToTarget is not clamped above: when the total investment and
target multiplier are positive and revenue exceeds the target revenue,
progressToTarget exceeds 100. -/
theorem progressToTarget_unclamped (config : PalletConfig) (sales : List Sale)
    (hI : 0 < config.investmentUsd + config.additionalExpensesUsd)
    (hm : 0 < config.targetMultiplier)
    (hR : (calculateFinancials config sales).targetRevenueUsd <
      (calculateFinancials config sales).totalRevenueUsd) :
    100 < (calculateFinancials config sales).progressToTarget := by
  simp only [calculateFinancials] at hR ⊢
  have hT : 0 < (config.investmentUsd + config.additionalExpensesUsd) *
      config.targetMultiplier := mul_pos hI hm
  have h1 : 1 < (sales.foldl (fun acc s => acc + s.price) 0) /
      ((config.investmentUsd + config.additionalExpensesUsd) *
        config.targetMultiplier) := (one_lt_div hT).mpr hR
  have h2 := mul_lt_mul_of_pos_right h1 (show (0:ℚ) < 100 by norm_num)
  linarith

/-- C10 witness: two 1500 dollar sales against Scenario A; target revenue is
2000, revenue is 3000, progressToTarget is 150. -/
theorem progressToTarget_unclamped_witness :
    (0 < cfgA.investmentUsd + cfgA.additionalExpensesUsd) ∧
    (0 < cfgA.targetMultiplier) ∧
    ((calculateFinancials cfgA [saleBig, saleBig]).targetRevenueUsd <
      (calculateFinancials cfgA [saleBig, saleBig]).totalRevenueUsd) ∧
    100 < (calculateFinancials cfgA [saleBig, saleBig]).progressToTarget :=
  ⟨by norm_num [cfgA], by norm_num [cfgA],
    by norm_num [calculateFinancials, cfgA, saleBig],
    progressToTarget_unclamped cfgA [saleBig, saleBig] (by norm_num [cfgA])
      (by norm_num [cfgA]) (by norm_num [calculateFinancials, cfgA, saleBig])⟩

end Pallet

namespace Pallet

/-- Display currency, from the Currency enum in src/types.ts. -/
inductive Currency where
  | USD
  | MXN
deriving DecidableEq

/-- Result of the simulator of src/App.tsx (the simResults useMemo): one field
per entry of its returned object literal. -/
structure SimResultsApp where
  profitPerPiece : ℚ
  totalRevenue : ℚ
  totalNetProfit : ℚ
  isTargetMet : Bool
deriving DecidableEq

/-- The simulator of src/App.tsx, translated from the simResults useMemo: it
returns null for a nonpositive price, converts the entered price to the base
currency, and projects revenue and net profit from selling all remaining
pieces at that price. -/
def simResultsApp (simPrice : ℚ) (displayCurrency : Currency) (exchangeRate : ℚ)
    (stats : FinancialSnapshot) : Option SimResultsApp :=
  if simPrice ≤ 0 then none else
  let priceInUsd := if displayCurrency = Currency.MXN then simPrice / exchangeRate else simPrice
  let projectedTotalRev := stats.totalRevenueUsd + stats.remainingPieces * priceInUsd
  some
    { profitPerPiece := max 0 (priceInUsd - stats.dynamicCostPerPieceUsd)
      totalRevenue := projectedTotalRev
      totalNetProfit := projectedTotalRev - stats.totalInvestmentUsd
      isTargetMet := decide (projectedTotalRev ≥ stats.targetRevenueUsd) }

/-- Result of the simulator of src/unnamed/part_000 (its simResults useMemo):
one field per entry of its returned object literal. -/
structure SimResultsMaster where
  profit : ℚ
  remainingInv : ℚ
  dynamicCost : ℚ
  diffCost : ℚ
  projectedTotalRevenue : ℚ
  projectedNetProfit : ℚ
  meetsTarget : Bool
deriving DecidableEq

/-- The simulator of src/unnamed/part_000, translated from its simResults
useMemo. -/
def simResultsMaster (simPrice : ℚ) (displayCurrency : Currency) (exchangeRate : ℚ)
    (stats : FinancialSnapshot) : Option SimResultsMaster :=
  if simPrice ≤ 0 then none else
  let priceInUsd := if displayCurrency = Currency.MXN then simPrice / exchangeRate else simPrice
  let profitForThisPiece := max 0 (priceInUsd - stats.dynamicCostPerPieceUsd)
  let newRemainingInvUsd := max 0 (stats.remainingInvestmentUsd - priceInUsd)
  let newPiecesRemaining := max 0 (stats.remainingPieces - 1)
  let newDynamicCostUsd :=
    if newPiecesRemaining > 0 then newRemainingInvUsd / newPiecesRemaining else 0
  let projectedTotalRevenueUsd := stats.totalRevenueUsd + stats.remainingPieces * priceInUsd
  let projectedNetProfitUsd := projectedTotalRevenueUsd - stats.totalInvestmentUsd
  let meetsTarget := decide (projectedTotalRevenueUsd ≥ stats.targetRevenueUsd)
  some
    { profit := profitForThisPiece
      remainingInv := newRemainingInvUsd
      dynamicCost := newDynamicCostUsd
      diffCost := newDynamicCostUsd - stats.dynamicCostPerPieceUsd
      projectedTotalRevenue := projectedTotalRevenueUsd
      projectedNetProfit := projectedNetProfitUsd
      meetsTarget := meetsTarget }

/-- C6 counterexample: at the Scenario A snapshot with no sales and a
hypothetical price of 5 dollars, projected revenue is 500 which is below the
1000 dollar investment, and BOTH simulator variants report the same
unclamped negative projected net profit of -500: neither variant clamps to
nonnegative and they do not differ. -/
theorem simulators_counterexample :
    Option.map SimResultsApp.totalNetProfit
        (simResultsApp 5 Currency.USD 20 (calculateFinancials cfgA [])) = some (-500) ∧
    Option.map SimResultsMaster.projectedNetProfit
        (simResultsMaster 5 Currency.USD 20 (calculateFinancials cfgA [])) = some (-500) ∧
    ((-500 : ℚ) < 0) := by
  have hC : Currency.USD ≠ Currency.MXN := by decide
  refine ⟨?_, ?_, by norm_num⟩ <;>
    norm_num [simResultsApp, simResultsMaster, calculateFinancials, cfgA, hC]

/-- C6 amended: the two simulateSale variants agree: both compute the
projected net profit as projected total revenue minus the total investment,
with no clamping in either, so on every snapshot and hypothetical price the
two variants return the same projected net profit (and none when the price
is nonpositive). -/
theorem simulators_agree (simPrice : ℚ) (displayCurrency : Currency)
    (exchangeRate : ℚ) (stats : FinancialSnapshot) :
    Option.map SimResultsApp.totalNetProfit
        (simResultsApp simPrice displayCurrency exchangeRate stats) =
      Option.map SimResultsMaster.projectedNetProfit
        (simResultsMaster simPrice displayCurrency exchangeRate stats) ∧
    Option.map SimResultsApp.totalNetProfit
        (simResultsApp simPrice displayCurrency exchangeRate stats) =
      Option.map (fun r => r.totalRevenue - stats.totalInvestmentUsd)
        (simResultsApp simPrice displayCurrency exchangeRate stats) ∧
    Option.map SimResultsMaster.projectedNetProfit
        (simResultsMaster simPrice displayCurrency exchangeRate stats) =
      Option.map (fun r => r.projectedTotalRevenue - stats.totalInvestmentUsd)
        (simResultsMaster simPrice displayCurrency exchangeRate stats) := by
  by_cases hp : simPrice ≤ 0 <;>
    simp [simResultsApp, simResultsMaster, hp]

end Pallet

namespace Pallet

/-- A spreadsheet cell of the export: the arrays handed to aoa_to_sheet in
src/components/ExportButton.tsx mix strings and numbers. -/
inductive Cell where
  | str : String → Cell
  | num : ℚ → Cell
deriving DecidableEq

/-- Header row of the per-sale ledger sheet (Historial de Ventas) built by
handleExport in src/components/ExportButton.tsx. -/
def ledgerHeader : List Cell :=
  [Cell.str "FECHA", Cell.str "CLIENTE", Cell.str "MÉTODO PAGO",
   Cell.str "PRECIO VENTA (USD)", Cell.str "COSTO MOMENTO (USD)",
   Cell.str "GANANCIA (USD)", Cell.str "CAPITAL PENDIENTE (USD)"]

/-- One ledger row per sale, translated from the arrow function inside
salesData in handleExport: the JavaScript expression s.client || 'General'
becomes a test against the empty string, and the final entry is the constant
0 placeholder the code labels capital pendiente. -/
def ledgerRow (s : Sale) : List Cell :=
  [Cell.str s.date,
   Cell.str (if s.client = "" then "General" else s.client),
   Cell.str s.method,
   Cell.num s.price,
   Cell.num s.realCostAtSale,
   Cell.num (max 0 (s.price - s.realCostAtSale)),
   Cell.num 0]

/-- The full per-sale ledger (header row followed by one row per sale), from
the salesData array literal in handleExport. -/
def salesData (sales : List Sale) : List (List Cell) :=
  ledgerHeader :: sales.map ledgerRow

/-- C8 counterexample: a concrete ledger row has 7 entries, not the 6 the
claim lists; the extra final column is the constant-0 capital pendiente
placeholder. -/
theorem ledger_columns_counterexample :
    (ledgerRow saleSmall).length = 7 ∧ (ledgerRow saleSmall).length ≠ 6 ∧
    (ledgerRow saleSmall).getLast? = some (Cell.num 0) := by
  simp [ledgerRow, saleSmall]

/-- C8 amended: the ledger consists of a header row and one row per sale;
every row has exactly 7 columns: date, client (defaulted to General when
empty), payment method, sale price, cost at sale, realized profit equal to
max(0, price - realCostAtSale), plus a seventh always-0 capital pendiente
placeholder column. -/
theorem ledger_columns (sales : List Sale) :
    (salesData sales).head? = some ledgerHeader ∧
    ledgerHeader.length = 7 ∧
    (∀ row ∈ salesData sales, row.length = 7) ∧
    (∀ s ∈ sales,
      ledgerRow s ∈ (salesData sales).tail ∧
      (ledgerRow s)[0]? = some (Cell.str s.date) ∧
      (ledgerRow s)[1]? = some (Cell.str (if s.client = "" then "General" else s.client)) ∧
      (ledgerRow s)[2]? = some (Cell.str s.method) ∧
      (ledgerRow s)[3]? = some (Cell.num s.price) ∧
      (ledgerRow s)[4]? = some (Cell.num s.realCostAtSale) ∧
      (ledgerRow s)[5]? = some (Cell.num (max 0 (s.price - s.realCostAtSale))) ∧
      (ledgerRow s)[6]? = some (Cell.num 0)) := by
  refine ⟨rfl, rfl, ?_, ?_⟩
  · intro row hrow
    rcases List.mem_cons.mp hrow with rfl | hmem
    · rfl
    · rcases List.mem_map.mp hmem with ⟨s, _, rfl⟩
      rfl
  · intro s hs
    exact ⟨List.mem_map_of_mem ledgerRow hs, rfl, rfl, rfl, rfl, rfl, rfl, rfl⟩

/-- C8 amended witness: the ledger of a single concrete sale. -/
theorem ledger_columns_witness :
    (salesData [saleSmall]).head? = some ledgerHeader ∧
    (ledgerRow saleSmall).length = 7 ∧
    (ledgerRow saleSmall)[5]? =
      some (Cell.num (max 0 (saleSmall.price - saleSmall.realCostAtSale))) ∧
    (ledgerRow saleSmall)[6]? = some (Cell.num 0) :=
  ⟨(ledger_columns [saleSmall]).1,
   (ledger_columns [saleSmall]).2.2.1 (ledgerRow saleSmall) (by simp [salesData]),
   ((ledger_columns [saleSmall]).2.2.2 saleSmall (by simp)).2.2.2.2.2.2.1,
   ((ledger_columns [saleSmall]).2.2.2 saleSmall (by simp)).2.2.2.2.2.2.2⟩

end Pallet

namespace Pallet

/-- A JavaScript number with its IEEE special values: an exact rational, or
Infinity, -Infinity, NaN.  Used to model the engine faithfully on degenerate
configurations, where JavaScript division by zero yields Infinity or NaN.
Negative zero is identified with zero (zero denominators behave as +0) and
rounding and overflow of finite results are not modelled. -/
inductive JSNum where
  | finite : ℚ → JSNum
  | posInf : JSNum
  | negInf : JSNum
  | nan : JSNum
deriving DecidableEq

/-- True exactly on the finite values (JavaScript Number.isFinite). -/
def JSNum.isFinite : JSNum → Bool
  | .finite _ => true
  | _ => false

/-- JavaScript addition on JSNum. -/
def JSNum.add : JSNum → JSNum → JSNum
  | .nan, _ => .nan
  | _, .nan => .nan
  | .finite a, .finite b => .finite (a + b)
  | .finite _, .posInf => .posInf
  | .finite _, .negInf => .negInf
  | .posInf, .finite _ => .posInf
  | .negInf, .finite _ => .negInf
  | .posInf, .posInf => .posInf
  | .negInf, .negInf => .negInf
  | .posInf, .negInf => .nan
  | .negInf, .posInf => .nan

/-- JavaScript subtraction on JSNum. -/
def JSNum.sub : JSNum → JSNum → JSNum
  | .nan, _ => .nan
  | _, .nan => .nan
  | .finite a, .finite b => .finite (a - b)
  | .finite _, .posInf => .negInf
  | .finite _, .negInf => .posInf
  | .posInf, .finite _ => .posInf
  | .negInf, .finite _ => .negInf
  | .posInf, .posInf => .nan
  | .negInf, .negInf => .nan
  | .posInf, .negInf => .posInf
  | .negInf, .posInf => .negInf

/-- JavaScript multiplication on JSNum; zero times an infinity is NaN. -/
def JSNum.mul : JSNum → JSNum → JSNum
  | .nan, _ => .nan
  | _, .nan => .nan
  | .finite a, .finite b => .finite (a * b)
  | .finite a, .posInf => if 0 < a then .posInf else if a < 0 then .negInf else .nan
  | .finite a, .negInf => if 0 < a then .negInf else if a < 0 then .posInf else .nan
  | .posInf, .finite b => if 0 < b then .posInf else if b < 0 then .negInf else .nan
  | .negInf, .finite b => if 0 < b then .negInf else if b < 0 then .posInf else .nan
  | .posInf, .posInf => .posInf
  | .posInf, .negInf => .negInf
  | .negInf, .posInf => .negInf
  | .negInf, .negInf => .posInf

/-- JavaScript division on JSNum: a nonzero finite value divided by zero is a
signed infinity, zero divided by zero is NaN, an infinity divided by an
infinity is NaN. -/
def JSNum.div : JSNum → JSNum → JSNum
  | .nan, _ => .nan
  | _, .nan => .nan
  | .finite a, .finite b =>
      if b = 0 then (if 0 < a then .posInf else if a < 0 then .negInf else .nan)
      else .finite (a / b)
  | .finite _, .posInf => .finite 0
  | .finite _, .negInf => .finite 0
  | .posInf, .finite b => if 0 ≤ b then .posInf else .negInf
  | .negInf, .finite b => if 0 ≤ b then .negInf else .posInf
  | .posInf, .posInf => .nan
  | .posInf, .negInf => .nan
  | .negInf, .posInf => .nan
  | .negInf, .negInf => .nan

/-- JavaScript Math.min on JSNum: NaN if either argument is NaN. -/
def JSNum.jmin : JSNum → JSNum → JSNum
  | .nan, _ => .nan
  | _, .nan => .nan
  | .finite a, .finite b => .finite (min a b)
  | .negInf, _ => .negInf
  | _, .negInf => .negInf
  | .posInf, x => x
  | x, .posInf => x

/-- JavaScript Math.max on JSNum: NaN if either argument is NaN. -/
def JSNum.jmax : JSNum → JSNum → JSNum
  | .nan, _ => .nan
  | _, .nan => .nan
  | .finite a, .finite b => .finite (max a b)
  | .posInf, _ => .posInf
  | _, .posInf => .posInf
  | .negInf, x => x
  | x, .negInf => x

/-- JavaScript comparison a >= b on JSNum: false whenever NaN is involved. -/
def JSNum.jge : JSNum → JSNum → Bool
  | .nan, _ => false
  | _, .nan => false
  | .finite a, .finite b => decide (a ≥ b)
  | .posInf, _ => true
  | _, .posInf => false
  | _, .negInf => true
  | .negInf, _ => false

/-- JavaScript comparison a > b on JSNum: false whenever NaN is involved. -/
def JSNum.jgt : JSNum → JSNum → Bool
  | .nan, _ => false
  | _, .nan => false
  | .finite a, .finite b => decide (a > b)
  | .posInf, .posInf => false
  | .posInf, _ => true
  | _, .posInf => false
  | .negInf, .negInf => false
  | _, .negInf => true
  | .negInf, _ => false

/-- Configuration with JavaScript-number fields. -/
structure PalletConfigJS where
  investmentUsd : JSNum
  exchangeRate : JSNum
  totalPieces : JSNum
  additionalExpensesUsd : JSNum
  targetMultiplier : JSNum
deriving DecidableEq

/-- Sale record with JavaScript-number fields. -/
structure SaleJS where
  id : String
  date : String
  price : JSNum
  method : String
  client : String
  realCostAtSale : JSNum
deriving DecidableEq

/-- Snapshot with JavaScript-number fields. -/
structure FinancialSnapshotJS where
  totalInvestmentUsd : JSNum
  totalInvestmentMxn : JSNum
  totalRevenueUsd : JSNum
  remainingInvestmentUsd : JSNum
  piecesSold : JSNum
  remainingPieces : JSNum
  dynamicCostPerPieceUsd : JSNum
  capitalRecoveredUsd : JSNum
  netProfitUsd : JSNum
  recoveryProgress : JSNum
  initialCostPerPieceUsd : JSNum
  averageMarginUsd : JSNum
  targetRevenueUsd : JSNum
  progressToTarget : JSNum
  isROIReached : Bool
deriving DecidableEq

/-- The engine again, over JSNum instead of exact rationals: the same line by
line translation of calculateFinancials, now keeping the JavaScript special
values so that division by zero behaves as in the source.  The function is
total and returns every field for every input: no error path exists. -/
def calculateFinancialsJS (config : PalletConfigJS) (sales : List SaleJS) :
    FinancialSnapshotJS :=
  let totalInvestmentUsd := config.investmentUsd.add config.additionalExpensesUsd
  let totalInvestmentMxn := totalInvestmentUsd.mul config.exchangeRate
  let totalRevenueUsd := sales.foldl (fun acc s => acc.add s.price) (.finite 0)
  let remainingInvestmentUsd := JSNum.jmax (.finite 0) (totalInvestmentUsd.sub totalRevenueUsd)
  let piecesSold : JSNum := .finite ((sales.length : ℚ))
  let remainingPieces := config.totalPieces.sub piecesSold
  let dynamicCostPerPieceUsd :=
    if remainingPieces.jgt (.finite 0) then remainingInvestmentUsd.div remainingPieces
    else .finite 0
  let capitalRecoveredUsd := JSNum.jmin totalRevenueUsd totalInvestmentUsd
  let netProfitUsd := JSNum.jmax (.finite 0) (totalRevenueUsd.sub totalInvestmentUsd)
  let recoveryProgress := (capitalRecoveredUsd.div totalInvestmentUsd).mul (.finite 100)
  let initialCostPerPieceUsd := totalInvestmentUsd.div config.totalPieces
  let averageMarginUsd :=
    if 0 < sales.length then
      (totalRevenueUsd.div (.finite ((sales.length : ℚ)))).sub initialCostPerPieceUsd
    else .finite 0
  let targetRevenueUsd := totalInvestmentUsd.mul config.targetMultiplier
  let progressToTarget := (totalRevenueUsd.div targetRevenueUsd).mul (.finite 100)
  let isROIReached := totalRevenueUsd.jge totalInvestmentUsd
  { totalInvestmentUsd := totalInvestmentUsd
    totalInvestmentMxn := totalInvestmentMxn
    totalRevenueUsd := totalRevenueUsd
    remainingInvestmentUsd := remainingInvestmentUsd
    piecesSold := piecesSold
    remainingPieces := remainingPieces
    dynamicCostPerPieceUsd := dynamicCostPerPieceUsd
    capitalRecoveredUsd := capitalRecoveredUsd
    netProfitUsd := netProfitUsd
    recoveryProgress := recoveryProgress
    initialCostPerPieceUsd := initialCostPerPieceUsd
    averageMarginUsd := averageMarginUsd
    targetRevenueUsd := targetRevenueUsd
    progressToTarget := progressToTarget
    isROIReached := isROIReached }

/-- Division by the finite value 0 is never finite (it is Infinity, -Infinity
or NaN), whatever the numerator. -/
lemma JSNum.isFinite_div_zero (x : JSNum) : (x.div (.finite 0)).isFinite = false := by
  cases x with
  | finite a =>
      simp only [JSNum.div, if_pos rfl]
      split_ifs <;> rfl
  | posInf => simp [JSNum.div, JSNum.isFinite]
  | negInf => simp [JSNum.div, JSNum.isFinite]
  | nan => rfl

/-- Division by NaN is NaN. -/
lemma JSNum.div_nan (x : JSNum) : x.div .nan = .nan := by
  cases x <;> rfl

/-- Multiplying a non-finite value by the finite constant 100 stays
non-finite. -/
lemma JSNum.isFinite_mul_hundred (x : JSNum) (h : x.isFinite = false) :
    (x.mul (.finite 100)).isFinite = false := by
  cases x with
  | finite a => simp [JSNum.isFinite] at h
  | posInf => norm_num [JSNum.mul, JSNum.isFinite]
  | negInf => norm_num [JSNum.mul, JSNum.isFinite]
  | nan => rfl

/-- Multiplying any JSNum by the finite value 0 gives 0 or NaN. -/
lemma JSNum.mul_zero_right (x : JSNum) :
    x.mul (.finite 0) = .finite 0 ∨ x.mul (.finite 0) = .nan := by
  cases x with
  | finite a => left; simp [JSNum.mul]
  | posInf => right; norm_num [JSNum.mul]
  | negInf => right; norm_num [JSNum.mul]
  | nan => right; rfl

/-- The initial cost field of the JSNum engine, by definition. -/
lemma calcJS_initialCost (config : PalletConfigJS) (sales : List SaleJS) :
    (calculateFinancialsJS config sales).initialCostPerPieceUsd =
      (config.investmentUsd.add config.additionalExpensesUsd).div config.totalPieces := rfl

/-- The recovery progress field of the JSNum engine, by definition. -/
lemma calcJS_recoveryProgress (config : PalletConfigJS) (sales : List SaleJS) :
    (calculateFinancialsJS config sales).recoveryProgress =
      ((JSNum.jmin (sales.foldl (fun (acc : JSNum) s => acc.add s.price) (.finite 0))
          (config.investmentUsd.add config.additionalExpensesUsd)).div
        (config.investmentUsd.add config.additionalExpensesUsd)).mul (.finite 100) := rfl

/-- The target progress field of the JSNum engine, by definition. -/
lemma calcJS_progressToTarget (config : PalletConfigJS) (sales : List SaleJS) :
    (calculateFinancialsJS config sales).progressToTarget =
      ((sales.foldl (fun (acc : JSNum) s => acc.add s.price) (.finite 0)).div
        ((config.investmentUsd.add config.additionalExpensesUsd).mul
          config.targetMultiplier)).mul (.finite 100) := rfl

/-- C7: the JSNum engine is a total pure function: for every config and sales
list it returns a full snapshot (the existence conjunct), raising no error;
and on degenerate configurations, zero totalPieces, zero targetMultiplier or
zero total investment, the corresponding ratio field is a non-finite
JavaScript value (Infinity, -Infinity or NaN) rather than a failure. -/
theorem engine_total_and_degenerate (config : PalletConfigJS) (sales : List SaleJS) :
    (∃ snap, calculateFinancialsJS config sales = snap) ∧
    (config.totalPieces = .finite 0 →
      (calculateFinancialsJS config sales).initialCostPerPieceUsd.isFinite = false) ∧
    (config.targetMultiplier = .finite 0 →
      (calculateFinancialsJS config sales).progressToTarget.isFinite = false) ∧
    (config.investmentUsd.add config.additionalExpensesUsd = .finite 0 →
      (calculateFinancialsJS config sales).recoveryProgress.isFinite = false) := by
  refine ⟨⟨_, rfl⟩, ?_, ?_, ?_⟩
  · intro h
    rw [calcJS_initialCost, h]
    exact JSNum.isFinite_div_zero _
  · intro h
    rw [calcJS_progressToTarget, h]
    rcases JSNum.mul_zero_right (config.investmentUsd.add config.additionalExpensesUsd)
      with h2 | h2 <;> rw [h2]
    · exact JSNum.isFinite_mul_hundred _ (JSNum.isFinite_div_zero _)
    · refine JSNum.isFinite_mul_hundred _ ?_
      rw [JSNum.div_nan]
      rfl
  · intro h
    rw [calcJS_recoveryProgress, h]
    exact JSNum.isFinite_mul_hundred _ (JSNum.isFinite_div_zero _)

/-- A fully degenerate configuration: zero investment, zero pieces, zero
target multiplier. -/
def cfgDegen : PalletConfigJS :=
  { investmentUsd := .finite 0, exchangeRate := .finite 20, totalPieces := .finite 0,
    additionalExpensesUsd := .finite 0, targetMultiplier := .finite 0 }

/-- C7 witness: on the fully degenerate configuration with no sales the
engine still returns a snapshot and all three ratio fields are non-finite. -/
theorem engine_total_and_degenerate_witness :
    (cfgDegen.totalPieces = JSNum.finite 0) ∧
    (calculateFinancialsJS cfgDegen []).initialCostPerPieceUsd.isFinite = false ∧
    (calculateFinancialsJS cfgDegen []).progressToTarget.isFinite = false ∧
    (calculateFinancialsJS cfgDegen []).recoveryProgress.isFinite = false :=
  ⟨rfl,
   (engine_total_and_degenerate cfgDegen []).2.1 rfl,
   (engine_total_and_degenerate cfgDegen []).2.2.1 rfl,
   (engine_total_and_degenerate cfgDegen []).2.2.2 (by simp [cfgDegen, JSNum.add])⟩

end Pallet
